import Mathlib

/-!
Verification of the MassTransportProperties repository.

The repository consists of two pure Python functions:
  * `MetalDiff` (src/DiffusionAlloys.py): Arrhenius-law diffusivity of
    hydrogen isotopes in metal alloys, with a Graham's-law fallback.
  * `DiffGas_AB` (src/DiffusionGases.py): Fuller-Schettler-Giddings
    binary gas-phase diffusivity.

The embedding below models Python dictionaries as functions
`String → Option ℚ` (an if-then-else chain over the literal keys, which
is the semantic content of a dict lookup), float inputs as rationals
(every Python float denotes a rational number), and float arithmetic as
exact real arithmetic.  Raised exceptions become `Except` errors:
`KeyError` raised at the range-check step is `unsupportedAlloy`,
`KeyError` raised at the fallback step is `unsupportedIsotope`, and
`ZeroDivisionError` is `divByZero`.  The console warning of `MetalDiff`
is modelled as a `Bool` component of the result: `true` iff the warning
is printed.
-/

namespace DiffusionAlloys

/-- The ideal gas constant, `R = 8.314` in src/DiffusionAlloys.py line 63. -/
def R : ℚ := 8.314

/-- Atomic weights dictionary `M` [g/mol], src/DiffusionAlloys.py lines 66-69. -/
def M (Q : String) : Option ℚ :=
  if Q = "H" then some 1.00794
  else if Q = "D" then some 2.01410
  else if Q = "T" then some 3.01605
  else if Q = "He" then some 4.00260
  else none

/-- Pre-exponential factor dictionary `D0` [m^2/s], src/DiffusionAlloys.py
lines 72-87.  `D0 A Q` is the lookup `D0[A][Q]`: `none` models a `KeyError`. -/
def D0 (A Q : String) : Option ℚ :=
  if A = "SS304" then
    (if Q = "H" then some 1.22e-6 else none)
  else if A = "SS316" then
    (if Q = "H" then some 1.24e-6 else if Q = "D" then some 1.38e-6 else none)
  else if A = "Alpha-Fe" then
    (if Q = "H" then some 3.87e-8 else none)
  else if A = "75Pd-25Ag" then
    (if Q = "H" then some 3.07e-7 else if Q = "D" then some 1.87e-7 else none)
  else if A = "EUROFER97" then
    (if Q = "H" then some 4.57e-7 else if Q = "D" then some 1.50e-7 else none)
  else if A = "OPTIFER-IVb" then
    (if Q = "H" then some 5.49e-8 else if Q = "D" then some 4.61e-8
     else if Q = "T" then some 4.17e-8 else none)
  else none

/-- Activation energy dictionary `Ea` [kJ/mol], src/DiffusionAlloys.py
lines 91-106. -/
def Ea (A Q : String) : Option ℚ :=
  if A = "SS304" then
    (if Q = "H" then some 54.85 else none)
  else if A = "SS316" then
    (if Q = "H" then some 55.10 else if Q = "D" then some 57.50 else none)
  else if A = "Alpha-Fe" then
    (if Q = "H" then some 4.50 else none)
  else if A = "75Pd-25Ag" then
    (if Q = "H" then some 25.90 else if Q = "D" then some 24.69 else none)
  else if A = "EUROFER97" then
    (if Q = "H" then some 22.30 else if Q = "D" then some 14.50 else none)
  else if A = "OPTIFER-IVb" then
    (if Q = "H" then some 10.60 else if Q = "D" then some 11.30
     else if Q = "T" then some 12.00 else none)
  else none

/-- Lower temperature bound dictionary `T_min` [K], src/DiffusionAlloys.py
lines 110-120. -/
def T_min (A : String) : Option ℚ :=
  if A = "SS304" then some 645
  else if A = "SS316" then some 623
  else if A = "Alpha-Fe" then some 573
  else if A = "75Pd-25Ag" then some 323
  else if A = "EUROFER97" then some 373
  else if A = "OPTIFER-IVb" then some 423
  else none

/-- Upper temperature bound dictionary `T_max` [K], src/DiffusionAlloys.py
lines 123-133. -/
def T_max (A : String) : Option ℚ :=
  if A = "SS304" then some 945
  else if A = "SS316" then some 1123
  else if A = "Alpha-Fe" then some 873
  else if A = "75Pd-25Ag" then some 773
  else if A = "EUROFER97" then some 723
  else if A = "OPTIFER-IVb" then some 892
  else none

/-- How a `MetalDiff` call can fail: the `KeyError('Unsuported Alloy selected')`
of line 139, the `KeyError('Unsuported Isotope selected')` of line 152, and an
uncaught `ZeroDivisionError` escaping the fallback computation of line 148. -/
inductive MetalErr where
  | unsupportedAlloy
  | unsupportedIsotope
  | divByZero
deriving DecidableEq

/-- The Arrhenius expression `d0*exp(-ea*1000/(R*T))` of
src/DiffusionAlloys.py lines 143 and 148. -/
noncomputable def arrhenius (d0 ea T : ℚ) : ℝ :=
  (d0 : ℝ) * Real.exp (-(ea : ℝ) * 1000 / ((R : ℝ) * (T : ℝ)))

/-- The Graham's-law fallback block, src/DiffusionAlloys.py lines 147-152:
`D_H = D0[A]['H']*exp(-Ea[A]['H']*1000/(R*T)); return D_H*sqrt(M['H']/M[Q])`
guarded by `except KeyError: raise KeyError('Unsuported Isotope selected')`.
A `KeyError` from any of the lookups is converted to `unsupportedIsotope`;
the division by `R*T` is evaluated before the `M` lookups, so at `T = 0` the
`ZeroDivisionError` escapes uncaught. -/
noncomputable def metalFallback (A Q : String) (T : ℚ) : Except MetalErr ℝ :=
  match D0 A "H", Ea A "H" with
  | some d0H, some eaH =>
    if T = 0 then Except.error MetalErr.divByZero
    else
      match M "H", M Q with
      | some mH, some mQ =>
        Except.ok (arrhenius d0H eaH T * Real.sqrt ((mH : ℝ) / (mQ : ℝ)))
      | _, _ => Except.error MetalErr.unsupportedIsotope
  | _, _ => Except.error MetalErr.unsupportedIsotope

/-- The two try-blocks of src/DiffusionAlloys.py lines 142-152.  The direct
lookup `return D0[A][Q]*exp(-Ea[A][Q]*1000/(R*T))` sits under a bare
`except:` clause, so every failure of the direct stage — a `KeyError` from
either lookup or the `ZeroDivisionError` at `T = 0` — falls through to the
fallback block. -/
noncomputable def metalBody (A Q : String) (T : ℚ) : Except MetalErr ℝ :=
  match D0 A Q, Ea A Q with
  | some d0, some ea =>
    if T = 0 then metalFallback A Q T else Except.ok (arrhenius d0 ea T)
  | _, _ => metalFallback A Q T

/-- `MetalDiff(A, Q, T, W)` of src/DiffusionAlloys.py.  The first component
is the returned value or the raised error; the second component is `true`
iff the out-of-range warning of line 137 is printed.  The range-check block
of lines 135-139 evaluates `T_min[A] > T` first and, by Python short-circuit
evaluation of `or`, looks `T_max[A]` up only when that comparison is false;
a `KeyError` from either lookup is re-raised as the unsupported-alloy error. -/
noncomputable def MetalDiff (A Q : String) (T : ℚ) (W : Bool) :
    Except MetalErr ℝ × Bool :=
  match T_min A with
  | none => (Except.error MetalErr.unsupportedAlloy, false)
  | some tmin =>
    if tmin > T then (metalBody A Q T, W)
    else
      match T_max A with
      | none => (Except.error MetalErr.unsupportedAlloy, false)
      | some tmax =>
        if tmax < T then (metalBody A Q T, W) else (metalBody A Q T, false)

end DiffusionAlloys

namespace DiffusionGases

/-- Molar mass dictionary `M` [g/mol], src/DiffusionGases.py lines 38-55. -/
def M (X : String) : Option ℚ :=
  if X = "H2" then some 2.01593
  else if X = "D2" then some 4.028204
  else if X = "He" then some 4.002598
  else if X = "N2" then some 28.01403
  else if X = "H2O" then some 18.01534
  else if X = "Kr" then some 83.800
  else if X = "Xe" then some 131.300
  else if X = "Air" then some 28.963
  else if X = "Ar" then some 39.948
  else if X = "SF6" then some 146.05
  else if X = "O2" then some 32.000
  else if X = "CO2" then some 44.010
  else if X = "CO" then some 28.020
  else if X = "N2O" then some 44.010
  else if X = "NH3" then some 17.030
  else if X = "SO2" then some 64.0638
  else if X = "Cl2" then some 70.90
  else if X = "Br2" then some 159.808
  else none

/-- Atomic diffusion volume dictionary `SIGMA_v` [cm^3], src/DiffusionGases.py
lines 58-75. -/
def SIGMA_v (X : String) : Option ℚ :=
  if X = "H2" then some 6.12
  else if X = "D2" then some 6.84
  else if X = "He" then some 2.67
  else if X = "N2" then some 18.5
  else if X = "H2O" then some 13.1
  else if X = "Kr" then some 24.5
  else if X = "Xe" then some 32.7
  else if X = "Air" then some 19.7
  else if X = "Ar" then some 16.2
  else if X = "SF6" then some 71.3
  else if X = "O2" then some 16.3
  else if X = "CO2" then some 26.9
  else if X = "CO" then some 18.0
  else if X = "N2O" then some 35.9
  else if X = "NH3" then some 20.7
  else if X = "SO2" then some 41.8
  else if X = "Cl2" then some 38.4
  else if X = "Br2" then some 69.0
  else none

/-- The unit-conversion constant `K = 0.0101325` for pressure in pascals,
src/DiffusionGases.py line 77. -/
def K : ℚ := 0.0101325

/-- How a `DiffGas_AB` call can fail: the
`KeyError('Unsuported gas selected')` of line 83, or an uncaught
`ZeroDivisionError` from the division of line 81. -/
inductive GasErr where
  | unsupportedGas
  | divByZero
deriving DecidableEq

/-- The Fuller-Schettler-Giddings expression of src/DiffusionGases.py
line 81: `K*( T**1.75 * (1/M[A] + 1/M[B])**(1/2) ) /
(P*(SIGMA_v[A]**(1/3) + SIGMA_v[B]**(1/3))**2)`. -/
noncomputable def fullerFormula (mA mB sA sB T P : ℚ) : ℝ :=
  (K : ℝ) * ((T : ℝ) ^ (1.75 : ℝ) *
      (1 / (mA : ℝ) + 1 / (mB : ℝ)) ^ ((1 : ℝ) / 2)) /
    ((P : ℝ) * ((sA : ℝ) ^ ((1 : ℝ) / 3) + (sB : ℝ) ^ ((1 : ℝ) / 3)) ^ 2)

open Classical in
/-- `DiffGas_AB(A, B, T, P)` of src/DiffusionGases.py.  The whole return
expression of line 81 sits under `except KeyError`, so a missing key in any
of the four lookups raises the unsupported-gas error, while a zero divisor
(a zero molar mass in `1/M[..]`, or a zero denominator `P*(...)**2`, which
for the tabulated positive diffusion volumes happens exactly when `P = 0`)
raises an uncaught `ZeroDivisionError`. -/
noncomputable def DiffGas_AB (A B : String) (T P : ℚ) : Except GasErr ℝ :=
  match M A, M B, SIGMA_v A, SIGMA_v B with
  | some mA, some mB, some sA, some sB =>
    if mA = 0 ∨ mB = 0 ∨
        (P : ℝ) * ((sA : ℝ) ^ ((1 : ℝ) / 3) + (sB : ℝ) ^ ((1 : ℝ) / 3)) ^ 2 = 0
    then Except.error GasErr.divByZero
    else Except.ok (fullerFormula mA mB sA sB T P)
  | _, _, _, _ => Except.error GasErr.unsupportedGas

end DiffusionGases

namespace DiffusionAlloys

/-- The six alloy keys shared by the `D0`, `Ea`, `T_min` and `T_max`
dictionaries of src/DiffusionAlloys.py. -/
def knownAlloy (A : String) : Prop :=
  A = "SS304" ∨ A = "SS316" ∨ A = "Alpha-Fe" ∨ A = "75Pd-25Ag" ∨
    A = "EUROFER97" ∨ A = "OPTIFER-IVb"

theorem knownAlloy_of_D0 {A Q : String} {d : ℚ} (h : D0 A Q = some d) :
    knownAlloy A := by
  unfold D0 at h
  unfold knownAlloy
  split_ifs at h <;> tauto

theorem knownAlloy_of_Ea {A Q : String} {e : ℚ} (h : Ea A Q = some e) :
    knownAlloy A := by
  unfold Ea at h
  unfold knownAlloy
  split_ifs at h <;> tauto

theorem knownAlloy_of_T_min {A : String} {t : ℚ} (h : T_min A = some t) :
    knownAlloy A := by
  unfold T_min at h
  unfold knownAlloy
  split_ifs at h <;> tauto

theorem knownAlloy_tables {A : String} (h : knownAlloy A) :
    (∃ t1, T_min A = some t1) ∧ (∃ t2, T_max A = some t2) ∧
      (∃ d, D0 A "H" = some d) ∧ (∃ e, Ea A "H" = some e) := by
  rcases h with rfl | rfl | rfl | rfl | rfl | rfl <;>
    exact ⟨⟨_, rfl⟩, ⟨_, rfl⟩, ⟨_, rfl⟩, ⟨_, rfl⟩⟩

theorem metalDiff_fst {A : String} {t1 t2 : ℚ} (h1 : T_min A = some t1)
    (h2 : T_max A = some t2) (Q : String) (T : ℚ) (W : Bool) :
    (MetalDiff A Q T W).1 = metalBody A Q T := by
  unfold MetalDiff
  rw [h1]
  dsimp only
  split_ifs with h
  · rfl
  · rw [h2]
    dsimp only
    split_ifs <;> rfl

theorem metalDiff_alloyErr {A : String} (h : T_min A = none)
    (Q : String) (T : ℚ) (W : Bool) :
    MetalDiff A Q T W = (Except.error MetalErr.unsupportedAlloy, false) := by
  unfold MetalDiff
  rw [h]

theorem metalBody_direct {A Q : String} {d0 ea : ℚ} (hd : D0 A Q = some d0)
    (he : Ea A Q = some ea) {T : ℚ} (hT : T ≠ 0) :
    metalBody A Q T = Except.ok (arrhenius d0 ea T) := by
  unfold metalBody
  rw [hd, he]
  dsimp only
  rw [if_neg hT]

theorem metalBody_skip {A Q : String} (hd : D0 A Q = none) (he : Ea A Q = none)
    (T : ℚ) : metalBody A Q T = metalFallback A Q T := by
  unfold metalBody
  rw [hd, he]

theorem metalBody_zero (A Q : String) :
    metalBody A Q 0 = metalFallback A Q 0 := by
  unfold metalBody
  cases D0 A Q <;> cases Ea A Q <;> simp

theorem M_H_eq : M "H" = some 1.00794 := rfl

theorem metalFallback_ok {A Q : String} {d0H eaH mQ : ℚ}
    (hdH : D0 A "H" = some d0H) (heH : Ea A "H" = some eaH)
    {T : ℚ} (hT : T ≠ 0) (hmQ : M Q = some mQ) :
    metalFallback A Q T =
      Except.ok (arrhenius d0H eaH T *
        Real.sqrt (((1.00794 : ℚ) : ℝ) / (mQ : ℝ))) := by
  unfold metalFallback
  rw [hdH, heH]
  dsimp only
  rw [if_neg hT, M_H_eq, hmQ]

theorem metalFallback_isotopeErr {A Q : String} {d0H eaH : ℚ}
    (hdH : D0 A "H" = some d0H) (heH : Ea A "H" = some eaH)
    {T : ℚ} (hT : T ≠ 0) (hmQ : M Q = none) :
    metalFallback A Q T = Except.error MetalErr.unsupportedIsotope := by
  unfold metalFallback
  rw [hdH, heH]
  dsimp only
  rw [if_neg hT, M_H_eq, hmQ]

theorem metalFallback_zero {A Q : String} {d0H eaH : ℚ}
    (hdH : D0 A "H" = some d0H) (heH : Ea A "H" = some eaH) :
    metalFallback A Q 0 = Except.error MetalErr.divByZero := by
  unfold metalFallback
  rw [hdH, heH]
  dsimp only
  rw [if_pos rfl]

theorem metalFallback_cases (A Q : String) (T : ℚ) :
    (∃ v, metalFallback A Q T = Except.ok v) ∨
      metalFallback A Q T = Except.error MetalErr.unsupportedIsotope ∨
      metalFallback A Q T = Except.error MetalErr.divByZero := by
  unfold metalFallback
  cases hd : D0 A "H" with
  | none => simp
  | some d0H =>
    cases he : Ea A "H" with
    | none => simp
    | some eaH =>
      dsimp only
      split_ifs with hT
      · simp
      · rw [M_H_eq]
        cases hq : M Q with
        | none => simp
        | some mQ => exact Or.inl ⟨_, rfl⟩

theorem metalBody_cases (A Q : String) (T : ℚ) :
    (∃ v, metalBody A Q T = Except.ok v) ∨
      metalBody A Q T = Except.error MetalErr.unsupportedIsotope ∨
      metalBody A Q T = Except.error MetalErr.divByZero := by
  unfold metalBody
  cases hd : D0 A Q with
  | none =>
    dsimp only
    exact metalFallback_cases A Q T
  | some d0 =>
    cases he : Ea A Q with
    | none =>
      dsimp only
      exact metalFallback_cases A Q T
    | some ea =>
      dsimp only
      split_ifs with hT
      · exact metalFallback_cases A Q T
      · exact Or.inl ⟨_, rfl⟩

end DiffusionAlloys

namespace DiffusionGases

theorem M_pos {X : String} {m : ℚ} (h : M X = some m) : 0 < m := by
  unfold M at h
  rcases eq_or_ne X "H2" with h1 | h1
  · rw [if_pos h1] at h
    exact (Option.some.inj h) ▸ by norm_num
  rw [if_neg h1] at h
  rcases eq_or_ne X "D2" with h2 | h2
  · rw [if_pos h2] at h
    exact (Option.some.inj h) ▸ by norm_num
  rw [if_neg h2] at h
  rcases eq_or_ne X "He" with h3 | h3
  · rw [if_pos h3] at h
    exact (Option.some.inj h) ▸ by norm_num
  rw [if_neg h3] at h
  rcases eq_or_ne X "N2" with h4 | h4
  · rw [if_pos h4] at h
    exact (Option.some.inj h) ▸ by norm_num
  rw [if_neg h4] at h
  rcases eq_or_ne X "H2O" with h5 | h5
  · rw [if_pos h5] at h
    exact (Option.some.inj h) ▸ by norm_num
  rw [if_neg h5] at h
  rcases eq_or_ne X "Kr" with h6 | h6
  · rw [if_pos h6] at h
    exact (Option.some.inj h) ▸ by norm_num
  rw [if_neg h6] at h
  rcases eq_or_ne X "Xe" with h7 | h7
  · rw [if_pos h7] at h
    exact (Option.some.inj h) ▸ by norm_num
  rw [if_neg h7] at h
  rcases eq_or_ne X "Air" with h8 | h8
  · rw [if_pos h8] at h
    exact (Option.some.inj h) ▸ by norm_num
  rw [if_neg h8] at h
  rcases eq_or_ne X "Ar" with h9 | h9
  · rw [if_pos h9] at h
    exact (Option.some.inj h) ▸ by norm_num
  rw [if_neg h9] at h
  rcases eq_or_ne X "SF6" with h10 | h10
  · rw [if_pos h10] at h
    exact (Option.some.inj h) ▸ by norm_num
  rw [if_neg h10] at h
  rcases eq_or_ne X "O2" with h11 | h11
  · rw [if_pos h11] at h
    exact (Option.some.inj h) ▸ by norm_num
  rw [if_neg h11] at h
  rcases eq_or_ne X "CO2" with h12 | h12
  · rw [if_pos h12] at h
    exact (Option.some.inj h) ▸ by norm_num
  rw [if_neg h12] at h
  rcases eq_or_ne X "CO" with h13 | h13
  · rw [if_pos h13] at h
    exact (Option.some.inj h) ▸ by norm_num
  rw [if_neg h13] at h
  rcases eq_or_ne X "N2O" with h14 | h14
  · rw [if_pos h14] at h
    exact (Option.some.inj h) ▸ by norm_num
  rw [if_neg h14] at h
  rcases eq_or_ne X "NH3" with h15 | h15
  · rw [if_pos h15] at h
    exact (Option.some.inj h) ▸ by norm_num
  rw [if_neg h15] at h
  rcases eq_or_ne X "SO2" with h16 | h16
  · rw [if_pos h16] at h
    exact (Option.some.inj h) ▸ by norm_num
  rw [if_neg h16] at h
  rcases eq_or_ne X "Cl2" with h17 | h17
  · rw [if_pos h17] at h
    exact (Option.some.inj h) ▸ by norm_num
  rw [if_neg h17] at h
  rcases eq_or_ne X "Br2" with h18 | h18
  · rw [if_pos h18] at h
    exact (Option.some.inj h) ▸ by norm_num
  rw [if_neg h18] at h
  exact Option.noConfusion h

theorem SIGMA_v_pos {X : String} {s : ℚ} (h : SIGMA_v X = some s) : 0 < s := by
  unfold SIGMA_v at h
  rcases eq_or_ne X "H2" with h1 | h1
  · rw [if_pos h1] at h
    exact (Option.some.inj h) ▸ by norm_num
  rw [if_neg h1] at h
  rcases eq_or_ne X "D2" with h2 | h2
  · rw [if_pos h2] at h
    exact (Option.some.inj h) ▸ by norm_num
  rw [if_neg h2] at h
  rcases eq_or_ne X "He" with h3 | h3
  · rw [if_pos h3] at h
    exact (Option.some.inj h) ▸ by norm_num
  rw [if_neg h3] at h
  rcases eq_or_ne X "N2" with h4 | h4
  · rw [if_pos h4] at h
    exact (Option.some.inj h) ▸ by norm_num
  rw [if_neg h4] at h
  rcases eq_or_ne X "H2O" with h5 | h5
  · rw [if_pos h5] at h
    exact (Option.some.inj h) ▸ by norm_num
  rw [if_neg h5] at h
  rcases eq_or_ne X "Kr" with h6 | h6
  · rw [if_pos h6] at h
    exact (Option.some.inj h) ▸ by norm_num
  rw [if_neg h6] at h
  rcases eq_or_ne X "Xe" with h7 | h7
  · rw [if_pos h7] at h
    exact (Option.some.inj h) ▸ by norm_num
  rw [if_neg h7] at h
  rcases eq_or_ne X "Air" with h8 | h8
  · rw [if_pos h8] at h
    exact (Option.some.inj h) ▸ by norm_num
  rw [if_neg h8] at h
  rcases eq_or_ne X "Ar" with h9 | h9
  · rw [if_pos h9] at h
    exact (Option.some.inj h) ▸ by norm_num
  rw [if_neg h9] at h
  rcases eq_or_ne X "SF6" with h10 | h10
  · rw [if_pos h10] at h
    exact (Option.some.inj h) ▸ by norm_num
  rw [if_neg h10] at h
  rcases eq_or_ne X "O2" with h11 | h11
  · rw [if_pos h11] at h
    exact (Option.some.inj h) ▸ by norm_num
  rw [if_neg h11] at h
  rcases eq_or_ne X "CO2" with h12 | h12
  · rw [if_pos h12] at h
    exact (Option.some.inj h) ▸ by norm_num
  rw [if_neg h12] at h
  rcases eq_or_ne X "CO" with h13 | h13
  · rw [if_pos h13] at h
    exact (Option.some.inj h) ▸ by norm_num
  rw [if_neg h13] at h
  rcases eq_or_ne X "N2O" with h14 | h14
  · rw [if_pos h14] at h
    exact (Option.some.inj h) ▸ by norm_num
  rw [if_neg h14] at h
  rcases eq_or_ne X "NH3" with h15 | h15
  · rw [if_pos h15] at h
    exact (Option.some.inj h) ▸ by norm_num
  rw [if_neg h15] at h
  rcases eq_or_ne X "SO2" with h16 | h16
  · rw [if_pos h16] at h
    exact (Option.some.inj h) ▸ by norm_num
  rw [if_neg h16] at h
  rcases eq_or_ne X "Cl2" with h17 | h17
  · rw [if_pos h17] at h
    exact (Option.some.inj h) ▸ by norm_num
  rw [if_neg h17] at h
  rcases eq_or_ne X "Br2" with h18 | h18
  · rw [if_pos h18] at h
    exact (Option.some.inj h) ▸ by norm_num
  rw [if_neg h18] at h
  exact Option.noConfusion h

open Classical in
theorem diffGas_eq {A B : String} {mA mB sA sB : ℚ}
    (hA : M A = some mA) (hB : M B = some mB)
    (hsA : SIGMA_v A = some sA) (hsB : SIGMA_v B = some sB) (T P : ℚ) :
    DiffGas_AB A B T P =
      if mA = 0 ∨ mB = 0 ∨
          (P : ℝ) * ((sA : ℝ) ^ ((1 : ℝ) / 3) + (sB : ℝ) ^ ((1 : ℝ) / 3)) ^ 2 = 0
      then Except.error GasErr.divByZero
      else Except.ok (fullerFormula mA mB sA sB T P) := by
  unfold DiffGas_AB
  rw [hA, hB, hsA, hsB]

theorem gasDenom_ne {sA sB : ℚ} (hsA : 0 < sA) (hsB : 0 < sB)
    {P : ℚ} (hP : P ≠ 0) :
    (P : ℝ) * ((sA : ℝ) ^ ((1 : ℝ) / 3) + (sB : ℝ) ^ ((1 : ℝ) / 3)) ^ 2 ≠ 0 := by
  apply mul_ne_zero
  · exact_mod_cast hP
  · apply pow_ne_zero
    have h1 : (0 : ℝ) < (sA : ℝ) ^ ((1 : ℝ) / 3) :=
      Real.rpow_pos_of_pos (by exact_mod_cast hsA) _
    have h2 : (0 : ℝ) < (sB : ℝ) ^ ((1 : ℝ) / 3) :=
      Real.rpow_pos_of_pos (by exact_mod_cast hsB) _
    exact (add_pos h1 h2).ne'

theorem diffGas_ok {A B : String} {mA mB sA sB : ℚ}
    (hA : M A = some mA) (hB : M B = some mB)
    (hsA : SIGMA_v A = some sA) (hsB : SIGMA_v B = some sB)
    {T P : ℚ} (hP : P ≠ 0) :
    DiffGas_AB A B T P = Except.ok (fullerFormula mA mB sA sB T P) := by
  rw [diffGas_eq hA hB hsA hsB, if_neg]
  push_neg
  exact ⟨(M_pos hA).ne', (M_pos hB).ne',
    gasDenom_ne (SIGMA_v_pos hsA) (SIGMA_v_pos hsB) hP⟩

theorem diffGas_gasErr {A B : String}
    (h : M A = none ∨ M B = none ∨ SIGMA_v A = none ∨ SIGMA_v B = none)
    (T P : ℚ) :
    DiffGas_AB A B T P = Except.error GasErr.unsupportedGas := by
  unfold DiffGas_AB
  cases hA : M A <;> cases hB : M B <;>
    cases hsA : SIGMA_v A <;> cases hsB : SIGMA_v B <;> simp_all

end DiffusionGases

namespace DiffusionAlloys

/-- Claim C1: for every (alloy, isotope) pair present directly in both the
pre-exponential table `D0` and the activation-energy table `Ea`, and every
temperature `T > 0`, `MetalDiff` returns exactly
`D0[A][Q] * exp(-Ea[A][Q]*1000 / (R*T))` with `R = 8.314`, for both values
of the warning flag — in particular also when `T` lies outside the alloy's
validated range, where at most the warning is emitted and the formula is
still evaluated and returned. -/
theorem claim_C1 (A Q : String) (T : ℚ) (W : Bool) (d0 ea : ℚ)
    (hd : D0 A Q = some d0) (he : Ea A Q = some ea) (hT : 0 < T) :
    (MetalDiff A Q T W).1 =
      Except.ok ((d0 : ℝ) *
        Real.exp (-(ea : ℝ) * 1000 / ((R : ℝ) * (T : ℝ)))) := by
  obtain ⟨⟨t1, h1⟩, ⟨t2, h2⟩, _, _⟩ := knownAlloy_tables (knownAlloy_of_D0 hd)
  rw [metalDiff_fst h1 h2, metalBody_direct hd he hT.ne']
  rfl

/-- Witness for C1 at the pair SS316/H (the module's own self-test call), at a
temperature inside the validated range. -/
theorem claim_C1_witness :
    (MetalDiff "SS316" "H" 700 false).1 =
      Except.ok (((1.24e-6 : ℚ) : ℝ) *
        Real.exp (-((55.10 : ℚ) : ℝ) * 1000 / ((R : ℝ) * ((700 : ℚ) : ℝ)))) :=
  claim_C1 "SS316" "H" 700 false 1.24e-6 55.10 rfl rfl (by decide)

/-- Claim C3: for every alloy whose coefficient tables contain an 'H' entry,
every isotope absent from that alloy's coefficient tables but present in the
atomic-weight table `M`, and every `T > 0`, `MetalDiff` falls back to
Graham's law and returns `D_H * sqrt(M['H'] / M[Q])`, with
`D_H = D0[A]['H'] * exp(-Ea[A]['H']*1000 / (R*T))` and `M['H'] = 1.00794`. -/
theorem claim_C3 (A Q : String) (T : ℚ) (W : Bool) (d0H eaH mQ : ℚ)
    (hdH : D0 A "H" = some d0H) (heH : Ea A "H" = some eaH)
    (hdQ : D0 A Q = none) (heQ : Ea A Q = none)
    (hmQ : M Q = some mQ) (hT : 0 < T) :
    (MetalDiff A Q T W).1 =
      Except.ok ((d0H : ℝ) *
        Real.exp (-(eaH : ℝ) * 1000 / ((R : ℝ) * (T : ℝ))) *
        Real.sqrt (((1.00794 : ℚ) : ℝ) / (mQ : ℝ))) := by
  obtain ⟨⟨t1, h1⟩, ⟨t2, h2⟩, _, _⟩ := knownAlloy_tables (knownAlloy_of_D0 hdH)
  rw [metalDiff_fst h1 h2, metalBody_skip hdQ heQ,
    metalFallback_ok hdH heH hT.ne' hmQ]
  rfl

/-- Witness for C3: alloy SS304 tabulates only 'H', so isotope 'D' is served
by the Graham's-law fallback. -/
theorem claim_C3_witness :
    (MetalDiff "SS304" "D" 700 true).1 =
      Except.ok (((1.22e-6 : ℚ) : ℝ) *
        Real.exp (-((54.85 : ℚ) : ℝ) * 1000 / ((R : ℝ) * ((700 : ℚ) : ℝ))) *
        Real.sqrt (((1.00794 : ℚ) : ℝ) / ((2.01410 : ℚ) : ℝ))) :=
  claim_C3 "SS304" "D" 700 true 1.22e-6 54.85 2.01410 rfl rfl rfl rfl rfl
    (by decide)

/-- Claim C4: for every alloy identifier absent from the temperature-range
tables, every isotope, every temperature and both values of the warning
flag, `MetalDiff` raises the unsupported-alloy error at the initial
range-check, before any diffusivity computation; no value is returned and no
warning is printed. -/
theorem claim_C4 (A Q : String) (T : ℚ) (W : Bool)
    (h1 : T_min A = none) (_h2 : T_max A = none) :
    MetalDiff A Q T W = (Except.error MetalErr.unsupportedAlloy, false) :=
  metalDiff_alloyErr h1 Q T W

/-- Witness for C4 at an alloy identifier that is not tabulated. -/
theorem claim_C4_witness :
    MetalDiff "UnknownAlloy" "H" 500 true =
      (Except.error MetalErr.unsupportedAlloy, false) :=
  claim_C4 "UnknownAlloy" "H" 500 true rfl rfl

/-- Claim C5: for every alloy present in the range tables and every isotope
absent both from that alloy's coefficient tables and from the atomic-weight
table, `MetalDiff` (at a positive temperature) raises the
unsupported-isotope error; moreover, for an alloy present in the range
tables the unsupported-alloy error is never raised, at any isotope,
temperature or flag — it can only arise at the initial range-check. -/
theorem claim_C5 (A Q : String) (T : ℚ) (W : Bool) (t1 t2 : ℚ)
    (h1 : T_min A = some t1) (h2 : T_max A = some t2)
    (hdQ : D0 A Q = none) (heQ : Ea A Q = none) (hmQ : M Q = none)
    (hT : 0 < T) :
    (MetalDiff A Q T W).1 = Except.error MetalErr.unsupportedIsotope ∧
      ∀ (Q' : String) (T' : ℚ) (W' : Bool),
        (MetalDiff A Q' T' W').1 ≠ Except.error MetalErr.unsupportedAlloy := by
  obtain ⟨_, _, ⟨d0H, hdH⟩, ⟨eaH, heH⟩⟩ :=
    knownAlloy_tables (knownAlloy_of_T_min h1)
  constructor
  · rw [metalDiff_fst h1 h2, metalBody_skip hdQ heQ,
      metalFallback_isotopeErr hdH heH hT.ne' hmQ]
  · intro Q' T' W'
    rw [metalDiff_fst h1 h2]
    rcases metalBody_cases A Q' T' with ⟨v, hv⟩ | hv | hv <;> rw [hv] <;> simp

/-- Witness for C5: isotope identifier "Li" is absent from every table, so
SS304 with "Li" raises the unsupported-isotope error. -/
theorem claim_C5_witness :
    (MetalDiff "SS304" "Li" 700 true).1 =
        Except.error MetalErr.unsupportedIsotope ∧
      ∀ (Q' : String) (T' : ℚ) (W' : Bool),
        (MetalDiff "SS304" Q' T' W').1 ≠
          Except.error MetalErr.unsupportedAlloy :=
  claim_C5 "SS304" "Li" 700 true 645 945 rfl rfl rfl rfl rfl (by decide)

/-- Claim C7: for every alloy in the range tables, every isotope and every
`T > 0`, the returned value (first component) is the same whether the
warning flag is true or false, and equals the range-independent computation
`metalBody`, whether or not `T` lies inside the validated range: the flag
and the out-of-range status affect only the printed diagnostic. -/
theorem claim_C7 (A Q : String) (T : ℚ) (t1 t2 : ℚ)
    (h1 : T_min A = some t1) (h2 : T_max A = some t2) (_hT : 0 < T) :
    (∀ W W' : Bool, (MetalDiff A Q T W).1 = (MetalDiff A Q T W').1) ∧
      ∀ W : Bool, (MetalDiff A Q T W).1 = metalBody A Q T := by
  refine ⟨fun W W' => ?_, fun W => metalDiff_fst h1 h2 Q T W⟩
  rw [metalDiff_fst h1 h2, metalDiff_fst h1 h2]

/-- Witness for C7 at SS304 and T = 1000 K, which lies above
`T_max[SS304] = 945`: the result is warning-independent even out of range. -/
theorem claim_C7_witness :
    (∀ W W' : Bool,
        (MetalDiff "SS304" "H" 1000 W).1 = (MetalDiff "SS304" "H" 1000 W').1) ∧
      ∀ W : Bool, (MetalDiff "SS304" "H" 1000 W).1 = metalBody "SS304" "H" 1000 :=
  claim_C7 "SS304" "H" 1000 645 945 rfl rfl (by decide)

/-- Claim C8: the static tables are coherent: a pair (alloy, isotope) is in
the pre-exponential table `D0` iff it is in the activation-energy table
`Ea`, and every alloy appearing in `D0` or `Ea` has both a `T_min` and a
`T_max` entry. -/
theorem claim_C8 :
    (∀ A Q : String, (D0 A Q).isSome ↔ (Ea A Q).isSome) ∧
      ∀ A : String, ((∃ Q, (D0 A Q).isSome) ∨ (∃ Q, (Ea A Q).isSome)) →
        (T_min A).isSome ∧ (T_max A).isSome := by
  constructor
  · intro A Q
    unfold D0 Ea
    rcases eq_or_ne A "SS304" with hA1 | hA1
    · simp only [if_pos hA1]
      rcases eq_or_ne Q "H" with hQ1 | hQ1
      · simp only [if_pos hQ1]
        exact Iff.rfl
      · simp only [if_neg hQ1]
    simp only [if_neg hA1]
    rcases eq_or_ne A "SS316" with hA2 | hA2
    · simp only [if_pos hA2]
      rcases eq_or_ne Q "H" with hQ1 | hQ1
      · simp only [if_pos hQ1]
        exact Iff.rfl
      simp only [if_neg hQ1]
      rcases eq_or_ne Q "D" with hQ2 | hQ2
      · simp only [if_pos hQ2]
        exact Iff.rfl
      · simp only [if_neg hQ2]
    simp only [if_neg hA2]
    rcases eq_or_ne A "Alpha-Fe" with hA3 | hA3
    · simp only [if_pos hA3]
      rcases eq_or_ne Q "H" with hQ1 | hQ1
      · simp only [if_pos hQ1]
        exact Iff.rfl
      · simp only [if_neg hQ1]
    simp only [if_neg hA3]
    rcases eq_or_ne A "75Pd-25Ag" with hA4 | hA4
    · simp only [if_pos hA4]
      rcases eq_or_ne Q "H" with hQ1 | hQ1
      · simp only [if_pos hQ1]
        exact Iff.rfl
      simp only [if_neg hQ1]
      rcases eq_or_ne Q "D" with hQ2 | hQ2
      · simp only [if_pos hQ2]
        exact Iff.rfl
      · simp only [if_neg hQ2]
    simp only [if_neg hA4]
    rcases eq_or_ne A "EUROFER97" with hA5 | hA5
    · simp only [if_pos hA5]
      rcases eq_or_ne Q "H" with hQ1 | hQ1
      · simp only [if_pos hQ1]
        exact Iff.rfl
      simp only [if_neg hQ1]
      rcases eq_or_ne Q "D" with hQ2 | hQ2
      · simp only [if_pos hQ2]
        exact Iff.rfl
      · simp only [if_neg hQ2]
    simp only [if_neg hA5]
    rcases eq_or_ne A "OPTIFER-IVb" with hA6 | hA6
    · simp only [if_pos hA6]
      rcases eq_or_ne Q "H" with hQ1 | hQ1
      · simp only [if_pos hQ1]
        exact Iff.rfl
      simp only [if_neg hQ1]
      rcases eq_or_ne Q "D" with hQ2 | hQ2
      · simp only [if_pos hQ2]
        exact Iff.rfl
      simp only [if_neg hQ2]
      rcases eq_or_ne Q "T" with hQ3 | hQ3
      · simp only [if_pos hQ3]
        exact Iff.rfl
      · simp only [if_neg hQ3]
    simp only [if_neg hA6]
  · intro A h
    have hk : knownAlloy A := by
      rcases h with ⟨Q, hQ⟩ | ⟨Q, hQ⟩
      · obtain ⟨d, hd⟩ := Option.isSome_iff_exists.mp hQ
        exact knownAlloy_of_D0 hd
      · obtain ⟨e, he⟩ := Option.isSome_iff_exists.mp hQ
        exact knownAlloy_of_Ea he
    obtain ⟨⟨t1, ht1⟩, ⟨t2, ht2⟩, _, _⟩ := knownAlloy_tables hk
    rw [ht1, ht2]
    exact ⟨rfl, rfl⟩

/-- Witness for C8, instantiating the range-coverage conjunct at SS304. -/
theorem claim_C8_witness :
    (T_min "SS304").isSome ∧ (T_max "SS304").isSome :=
  claim_C8.2 "SS304" (Or.inl ⟨"H", rfl⟩)

/-- Claim C9: for every alloy in the range tables and temperature `T = 0`,
`MetalDiff` raises neither the unsupported-alloy nor the
unsupported-isotope error but the division-by-zero error, for every isotope
(also directly tabulated ones) and both flag values: the bare `except` of
the direct stage swallows the `ZeroDivisionError` and diverts the call into
the fallback stage, where the same division by `R*T` is re-raised outside
the `except KeyError` handler. -/
theorem claim_C9 (A : String) (t1 t2 : ℚ)
    (h1 : T_min A = some t1) (h2 : T_max A = some t2) (Q : String) (W : Bool) :
    (MetalDiff A Q 0 W).1 = Except.error MetalErr.divByZero := by
  obtain ⟨_, _, ⟨d0H, hdH⟩, ⟨eaH, heH⟩⟩ :=
    knownAlloy_tables (knownAlloy_of_T_min h1)
  rw [metalDiff_fst h1 h2, metalBody_zero, metalFallback_zero hdH heH]

/-- Witness for C9 at the directly tabulated pair OPTIFER-IVb/T. -/
theorem claim_C9_witness :
    (MetalDiff "OPTIFER-IVb" "T" 0 true).1 =
      Except.error MetalErr.divByZero :=
  claim_C9 "OPTIFER-IVb" 423 892 rfl rfl "T" true

end DiffusionAlloys

namespace DiffusionGases

/-- Claim C2: for every pair of gas species present in both the molar-mass
table `M` and the diffusion-volume table `SIGMA_v`, every `T > 0` and every
`P > 0`, `DiffGas_AB` returns exactly
`0.0101325 * (T^1.75 * (1/M[A] + 1/M[B])^(1/2)) /
(P * (SIGMA_v[A]^(1/3) + SIGMA_v[B]^(1/3))^2)`. -/
theorem claim_C2 (A B : String) (T P : ℚ) (mA mB sA sB : ℚ)
    (hA : M A = some mA) (hB : M B = some mB)
    (hsA : SIGMA_v A = some sA) (hsB : SIGMA_v B = some sB)
    (_hT : 0 < T) (hP : 0 < P) :
    DiffGas_AB A B T P =
      Except.ok (((0.0101325 : ℚ) : ℝ) *
        ((T : ℝ) ^ (1.75 : ℝ) *
          (1 / (mA : ℝ) + 1 / (mB : ℝ)) ^ ((1 : ℝ) / 2)) /
        ((P : ℝ) *
          ((sA : ℝ) ^ ((1 : ℝ) / 3) + (sB : ℝ) ^ ((1 : ℝ) / 3)) ^ 2)) := by
  rw [diffGas_ok hA hB hsA hsB hP.ne']
  rfl

/-- Witness for C2 at the documented example pair H2/Air at 298 K and
101325 Pa. -/
theorem claim_C2_witness :
    DiffGas_AB "H2" "Air" 298 101325 =
      Except.ok (((0.0101325 : ℚ) : ℝ) *
        (((298 : ℚ) : ℝ) ^ (1.75 : ℝ) *
          (1 / ((2.01593 : ℚ) : ℝ) + 1 / ((28.963 : ℚ) : ℝ)) ^ ((1 : ℝ) / 2)) /
        (((101325 : ℚ) : ℝ) *
          (((6.12 : ℚ) : ℝ) ^ ((1 : ℝ) / 3) +
            ((19.7 : ℚ) : ℝ) ^ ((1 : ℝ) / 3)) ^ 2)) :=
  claim_C2 "H2" "Air" 298 101325 2.01593 28.963 6.12 19.7 rfl rfl rfl rfl
    (by decide) (by decide)

/-- Counterexample to C6 as stated: at pressure `P = 0` with both species
fully tabulated, `DiffGas_AB` neither raises the unsupported-gas error nor
returns the computed value — it fails with the uncaught division-by-zero
error, so "otherwise it returns the computed value" is false at this
input. -/
theorem claim_C6_counterexample :
    M "H2" = some 2.01593 ∧ SIGMA_v "H2" = some 6.12 ∧
      M "Air" = some 28.963 ∧ SIGMA_v "Air" = some 19.7 ∧
      DiffGas_AB "H2" "Air" 298 0 = Except.error GasErr.divByZero := by
  refine ⟨rfl, rfl, rfl, rfl, ?_⟩
  have h := diffGas_eq (rfl : M "H2" = some 2.01593)
    (rfl : M "Air" = some 28.963) (rfl : SIGMA_v "H2" = some 6.12)
    (rfl : SIGMA_v "Air" = some 19.7) 298 0
  rw [h, if_pos]
  right
  right
  rw [Rat.cast_zero, zero_mul]

/-- Claim C6 as amended: for every pair of gas species identifiers, every
temperature and every nonzero pressure, `DiffGas_AB` fails with the
unsupported-gas error iff at least one of the two species is absent from
the molar-mass table or the diffusion-volume table; otherwise it returns
the computed Fuller-Schettler-Giddings value.  (At `P = 0` the computation
instead fails with a division-by-zero error.) -/
theorem claim_C6_amended (A B : String) (T P : ℚ) (hP : P ≠ 0) :
    (DiffGas_AB A B T P = Except.error GasErr.unsupportedGas ↔
      M A = none ∨ M B = none ∨ SIGMA_v A = none ∨ SIGMA_v B = none) ∧
      ∀ mA mB sA sB : ℚ, M A = some mA → M B = some mB →
        SIGMA_v A = some sA → SIGMA_v B = some sB →
        DiffGas_AB A B T P = Except.ok (fullerFormula mA mB sA sB T P) := by
  constructor
  · constructor
    · intro h
      by_contra hno
      push_neg at hno
      obtain ⟨hA1, hB1, hsA1, hsB1⟩ := hno
      obtain ⟨mA, hA⟩ := Option.ne_none_iff_exists'.mp hA1
      obtain ⟨mB, hB⟩ := Option.ne_none_iff_exists'.mp hB1
      obtain ⟨sA, hsA⟩ := Option.ne_none_iff_exists'.mp hsA1
      obtain ⟨sB, hsB⟩ := Option.ne_none_iff_exists'.mp hsB1
      rw [diffGas_ok hA hB hsA hsB hP] at h
      exact Except.noConfusion h
    · intro h
      exact diffGas_gasErr h T P
  · intro mA mB sA sB hA hB hsA hsB
    exact diffGas_ok hA hB hsA hsB hP

/-- Witness for the amended C6 at H2/Air, 298 K, 101325 Pa. -/
theorem claim_C6_amended_witness :
    (DiffGas_AB "H2" "Air" 298 101325 = Except.error GasErr.unsupportedGas ↔
      M "H2" = none ∨ M "Air" = none ∨
        SIGMA_v "H2" = none ∨ SIGMA_v "Air" = none) ∧
      ∀ mA mB sA sB : ℚ, M "H2" = some mA → M "Air" = some mB →
        SIGMA_v "H2" = some sA → SIGMA_v "Air" = some sB →
        DiffGas_AB "H2" "Air" 298 101325 =
          Except.ok (fullerFormula mA mB sA sB 298 101325) :=
  claim_C6_amended "H2" "Air" 298 101325 (by decide)

/-- Claim C10: for every pair of gas species both present in the gas
property tables, every temperature and pressure `P = 0`, `DiffGas_AB`
fails with the division-by-zero error, not with the unsupported-gas error:
the function guards only table keys, not pressure or temperature. -/
theorem claim_C10 (A B : String) (T : ℚ) (mA mB sA sB : ℚ)
    (hA : M A = some mA) (hB : M B = some mB)
    (hsA : SIGMA_v A = some sA) (hsB : SIGMA_v B = some sB) :
    DiffGas_AB A B T 0 = Except.error GasErr.divByZero := by
  rw [diffGas_eq hA hB hsA hsB, if_pos]
  right
  right
  rw [Rat.cast_zero, zero_mul]

/-- Witness for C10 at the tabulated pair N2/O2. -/
theorem claim_C10_witness :
    DiffGas_AB "N2" "O2" 298 0 = Except.error GasErr.divByZero :=
  claim_C10 "N2" "O2" 298 28.01403 32.000 18.5 16.3 rfl rfl rfl rfl

end DiffusionGases
